import Mathlib

/-!
# Verification of `MomentDateRanges.js` (intervalsJS)

Shallow embedding of `src/MomentDateRanges.js` (classes `DateRange` and
`PeriodRange`).  Calendar arithmetic is delegated by the repository to the
external `moment` library, which the specification abstracts as a pure
calendar-adapter capability interface (`add`, `subtract`, `compare`,
`durationDays`, `parse`); accordingly dates are modelled as integers counting
days (the adapter's day granularity), `add(date, 1, 'day')` as `+ 1` and
`subtract(date, 1, 'day')` as `- 1`.
-/

namespace IntervalsJS

/-- The adapter's `add(date, 1, 'day')`: the single-step advance used by
`DateRange.next` and by bound normalization (instance `step` is `'day'`). -/
def nextDay (d : Int) : Int := d + 1

/-- The adapter's `subtract(date, 1, 'day')`: the single-step retreat used by
`DateRange.prev`. -/
def prevDay (d : Int) : Int := d - 1

/-- Modelled from the spec: leap-year rule of the proleptic Gregorian
calendar used by the external calendar adapter (`moment`, not under
`src/`). -/
def isLeapYear (y : Nat) : Bool :=
  (y % 4 == 0 && y % 100 != 0) || y % 400 == 0

/-- Modelled from the spec: number of days in month `m` of year `y`
(calendar-adapter capability, not under `src/`). -/
def daysInMonth (y m : Nat) : Nat :=
  if m = 2 then (if isLeapYear y then 29 else 28)
  else if m = 4 ∨ m = 6 ∨ m = 9 ∨ m = 11 then 30
  else 31

/-- Day number of the civil date `y-m-d` (days since 0000-03-01, March-based
counting), a strictly monotone encoding of proleptic Gregorian dates. -/
def dayNumber (y m d : Nat) : Nat :=
  let ys := if m ≤ 2 then y - 1 else y
  let mp := if m ≤ 2 then m + 9 else m - 3
  365 * ys + ys / 4 + ys / 400 + (153 * mp + 2) / 5 + (d - 1) - ys / 100

/-- The civil date `y-m-d` as a day-number value. -/
def civil (y m d : Nat) : Int := Int.ofNat (dayNumber y m d)

/-- Modelled from the spec: validity check for a `y-m-d` triple — the date
must exist in the proleptic Gregorian calendar (adapter capability). -/
def mkDate (y m d : Nat) : Option Int :=
  if 1 ≤ m ∧ m ≤ 12 ∧ 1 ≤ d ∧ d ≤ daysInMonth y m then some (civil y m d)
  else none

/-- Value of a decimal digit character, if it is one. -/
def digit? (c : Char) : Option Nat :=
  let n := c.toNat
  if 48 ≤ n ∧ n ≤ 57 then some (n - 48) else none

/-- Modelled from the spec: parse the accepted textual format
`YYYY-MM-DD` (adapter parsing capability, not under `src/`). -/
def parseYMD (s : String) : Option Int :=
  match s.data with
  | [y1, y2, y3, y4, '-', m1, m2, '-', d1, d2] => do
      let a ← digit? y1
      let b ← digit? y2
      let c ← digit? y3
      let e ← digit? y4
      let f ← digit? m1
      let g ← digit? m2
      let h ← digit? d1
      let i ← digit? d2
      mkDate (a * 1000 + b * 100 + c * 10 + e) (f * 10 + g) (h * 10 + i)
  | _ => none

/-- Modelled from the spec: parse the accepted textual format
`MM-DD-YYYY` (adapter parsing capability, not under `src/`). -/
def parseMDY (s : String) : Option Int :=
  match s.data with
  | [m1, m2, '-', d1, d2, '-', y1, y2, y3, y4] => do
      let f ← digit? m1
      let g ← digit? m2
      let h ← digit? d1
      let i ← digit? d2
      let a ← digit? y1
      let b ← digit? y2
      let c ← digit? y3
      let e ← digit? y4
      mkDate (a * 1000 + b * 100 + c * 10 + e) (f * 10 + g) (h * 10 + i)
  | _ => none

/-- Modelled from the spec: `moment(x, ['MM-DD-YYYY', 'YYYY-MM-DD'])` — try
the two accepted textual formats in order. -/
def parseDate (s : String) : Option Int :=
  match parseMDY s with
  | some d => some d
  | none => parseYMD s

/-- A raw bound value as supplied in the constructor `settings`:
absent (`null`/`undefined`), a textual date, or an already-valid calendar
value (a `moment`). -/
inductive RawBound where
  | absent : RawBound
  | text : String → RawBound
  | value : Int → RawBound
deriving DecidableEq, Repr

/-- The date a raw bound denotes, when it is a recognized date
representation (one of the two accepted textual formats, or an
already-valid calendar value). Models `moment(b, ['MM-DD-YYYY',
'YYYY-MM-DD'])` with `isValid()`. -/
def RawBound.parses : RawBound → Option Int
  | .absent => none
  | .text s => parseDate s
  | .value d => some d

/-- Modelled from the spec: `utils.isValidDate` (in `./utils`, not under
`src/`) — a supplied bound is valid iff it is a recognized date
representation. -/
def isValidDate (b : RawBound) : Bool := b.parses.isSome

/-- JS truthiness of a raw bound value, as tested by the constructor's
`settings.lower && ...` guards: `null`/`undefined` (absent) and the empty
string are falsy; a non-empty string or a calendar value (a `moment`
object) is truthy. -/
def RawBound.truthy : RawBound → Bool
  | .absent => false
  | .text s => !(s == "")
  | .value _ => true

/-- The constructor `settings` object, with the recognized options and
their defaults (`lowerInc` defaults to `true`, `upperInc` to `false`), plus
the `type` field the constructor itself assigns into the object. -/
structure Settings where
  lower : RawBound := .absent
  upper : RawBound := .absent
  lowerInc : Bool := true
  upperInc : Bool := false
  type : Option String := none
deriving DecidableEq, Repr

/-- The internal canonical 5-tuple `_internalRange([lower, upper, lowerInc,
upperInc, empty])`. -/
structure RangeTuple where
  lower : Option Int
  upper : Option Int
  lowerInc : Bool
  upperInc : Bool
  empty : Bool
deriving DecidableEq, Repr

/-- `_emptyInternalRange = _internalRange([null, null, false, false, true])`. -/
def emptyInternalRange : RangeTuple :=
  ⟨none, none, false, false, true⟩

/-- A constructed `DateRange` instance: its canonical tuple `_range`
(mirrored by the instance fields `lower`/`upper`/`lowerInc`/`upperInc`),
its `type` (always `'date'`) and its iteration `step` (always `'day'`). -/
structure DateRange where
  range : RangeTuple
  type : String
  step : String
deriving DecidableEq, Repr

/-- The bound stored by the base class `MomentDateRange` for a raw bound
(modelled from the spec for the base class, which is not under `src/`:
a supplied bound is parsed to a calendar value, an absent bound is kept as
`null`).  A falsy supplied bound (empty string) skips validation and every
later truthiness test in the constructor, so it behaves as an absent bound
and is stored as `null` as well. -/
def boundDate (b : RawBound) : Option Int := b.parses

/-- Constructor lines 38-41: the adjusted lower bound `lb` — when a lower
bound is present and `lowerInc` is false, it advances by one step
(`this.next(lb)`). -/
def adjLower (settings : Settings) : Option Int :=
  if settings.lowerInc then boundDate settings.lower
  else (boundDate settings.lower).map nextDay

/-- Constructor lines 42-45: the adjusted upper bound `ub` — when an upper
bound is present and `upperInc` is true, it advances by one step
(`this.next(ub, this.step, settings.type)`). -/
def adjUpper (settings : Settings) : Option Int :=
  if settings.upperInc then (boundDate settings.upper).map nextDay
  else boundDate settings.upper

/-- Constructor lines 46-52: the canonical tuple stored in `_range` — the
canonical empty interval when both adjusted bounds are present and
`lb >= ub`, otherwise the half-open `[lb, ub)` tuple. -/
def normalizeTuple (lb ub : Option Int) : RangeTuple :=
  match lb, ub with
  | some l, some u =>
      if l ≥ u then emptyInternalRange
      else ⟨some l, some u, true, false, false⟩
  | l, u => ⟨l, u, true, false, false⟩

/-- The `DateRange` constructor (`MomentDateRanges.js` lines 26-65).
Validates the supplied bounds — the guard
`Object.keys(settings).length !== 0 && settings.lower && !utils.isValidDate(...)`
only fires on a *truthy* bound, so falsy supplied bounds (absent, empty
string) skip validation (a truthy bound also makes the settings object
non-empty, so the `Object.keys` conjunct adds nothing) — assigns
`settings.type = 'date'` into the caller's settings object, normalizes the
bounds (an exclusive lower advances one step, an inclusive upper advances
one step), and collapses to the canonical empty interval when both bounds
are present and `lower >= upper` after adjustment.  Returns the instance
together with the caller's (mutated) settings object; errors carry the
thrown message. -/
def DateRange.construct (settings : Settings) : Except String (DateRange × Settings) :=
  if settings.lower.truthy ∧ ¬ isValidDate settings.lower then
    .error "Invalid type of lower bound"
  else if settings.upper.truthy ∧ ¬ isValidDate settings.upper then
    .error "Invalid type of upper bound"
  else
    .ok (⟨normalizeTuple (adjLower settings) (adjUpper settings), "date", "day"⟩,
      { settings with type := some "date" })

/-- `DateRange.next(curr)` (lines 75-80): advances `curr` by one instance
step (the instance step is `'day'`). Returns the result together with the
instance after the call. -/
def DateRange.next (r : DateRange) (curr : Int) : Int × DateRange :=
  (nextDay curr, r)

/-- `DateRange.prev(curr)` (lines 90-92): moves `curr` back by one step.
Returns the result together with the instance after the call. -/
def DateRange.prev (r : DateRange) (curr : Int) : Int × DateRange :=
  (prevDay curr, r)

/-- `DateRange.last()` (lines 94-99): `null` when there is no upper bound,
otherwise `prev(upper, step)`. Returns the result together with the
instance after the call. -/
def DateRange.last (r : DateRange) : Option Int × DateRange :=
  match r.range.upper with
  | none => (none, r)
  | some u =>
      let (v, r1) := r.prev u
      (some v, r1)

/-- The iterator loop (lines 116-126): starting from `start`, repeatedly
advance by one step and yield the advanced value while it does not strictly
exceed `last`. -/
def iterFrom (last : Int) (start : Int) : List Int :=
  if h : start + 1 > last then []
  else (start + 1) :: iterFrom last (start + 1)
termination_by (last - start).toNat
decreasing_by
  omega

/-- `DateRange[Symbol.iterator]()` (lines 111-127) run to completion: the
list of values yielded with `done: false`.  `last` and `step` are captured
at iterator creation; the start value is `prev(lower, step)`.  `none` models
the runs the source cannot complete (no lower bound to start from, or no
`last()` to compare against, where the loop is not a terminating
enumeration).  Returns the list together with the instance after the run. -/
def DateRange.iterate (r : DateRange) : Option (List Int) × DateRange :=
  let (lastV, r1) := r.last
  match lastV, r1.range.lower with
  | some lv, some l =>
      let (start, r2) := r1.prev l
      (some (iterFrom lv start), r2)
  | _, _ => (none, r1)

/-- `DateRange.length()` (lines 135-140): throws when either bound is
`null`, otherwise the rounded day-duration between the bounds (exact at day
granularity, so `upper - lower` days). -/
def DateRange.length (r : DateRange) : Except String Int :=
  match r.range.lower, r.range.upper with
  | some l, some u => .ok (u - l)
  | _, _ => .error "Unbounded ranges do not have a length"

/-- `DateRange.endsWith(other)` (lines 101-109): when `other` parses as a
date in one of the two accepted formats, compare it to `last()` for
calendar-day equality (`isSame`); when `last()` is `null` the call to
`null.isSame` throws a `TypeError` (modelled as `.error`).  When `other`
does not parse, the source delegates to the generic base class `endsWith`
(not under `src/`), modelled as `none`. -/
def DateRange.endsWith (r : DateRange) (other : RawBound) : Option (Except String Bool) :=
  match other.parses with
  | some d =>
      match (r.last).1 with
      | some lv => some (.ok (lv == d))
      | none => some (.error "TypeError: Cannot read properties of null (reading isSame)")
  | none => none

/-- Modelled from the spec: length in days of the named period granularities
this model covers (`'week'`; every other tag behaves as `'day'`). -/
def periodLength (period : String) : Int :=
  if period = "week" then 7 else 1

/-- Modelled from the spec: the generic period-snapping routine backing the
base-class `fromDate` (not under `src/`) — the first day of the period of
granularity `period` containing `d` (floor alignment to the period
length). -/
def periodStart (period : String) (d : Int) : Int :=
  d - d % periodLength period

/-- A constructed `PeriodRange` instance: its canonical tuple `_range`, the
`period` tag set by `fromDate`, and the iteration `step` (always `'day'`). -/
structure PeriodRange where
  range : RangeTuple
  period : String
  step : String
deriving DecidableEq, Repr

/-- `PeriodRange.fromDate(day, period)` (lines 163-169): delegate to the
base-class period-snapping on the anchor `day` (modelled from the spec:
bounds aligned to the period's natural boundaries, half-open over one
period), and carry the resulting canonical tuple and the `period` tag. -/
def PeriodRange.fromDate (day : Int) (period : String) : PeriodRange :=
  let s := periodStart period day
  ⟨⟨some s, some (s + periodLength period), true, false, false⟩, period, "day"⟩

/-- `PeriodRange.nextPeriod()` (lines 192-194): re-invoke `fromDate` on the
current `upper` bound with the same `period` tag.  `none` models the
`TypeError` when `upper` is `null`. -/
def PeriodRange.nextPeriod (p : PeriodRange) : Option PeriodRange :=
  p.range.upper.map (fun u => PeriodRange.fromDate u p.period)

/-- `PeriodRange.prevPeriod()` (lines 196-198): re-invoke `fromDate` on
`prev(lower)` (`prev` runs with its default `'day'` step), with the same
`period` tag.  `none` models the `TypeError` when `lower` is `null`. -/
def PeriodRange.prevPeriod (p : PeriodRange) : Option PeriodRange :=
  p.range.lower.map (fun l => PeriodRange.fromDate (prevDay l) p.period)

/-- Reference enumeration (specification side, for the iteration claim):
the dates from `l` inclusive up to `u` exclusive, in order. -/
def rangeDates (l u : Int) : List Int :=
  (List.range (u - l).toNat).map (fun i => l + Int.ofNat i)

/-- A supplied bound that is truthy (so the constructor's guard inspects
it) and is not a recognized date representation. -/
def suppliedInvalid (b : RawBound) : Prop :=
  b.truthy = true ∧ b.parses = none

instance (b : RawBound) : Decidable (suppliedInvalid b) := by
  unfold suppliedInvalid
  infer_instance

/-! ## Helper lemmas -/

theorem rangeDates_cons (l u : Int) (h : l < u) :
    rangeDates l u = l :: rangeDates (l + 1) u := by
  unfold rangeDates
  have h1 : (u - l).toNat = (u - (l + 1)).toNat + 1 := by omega
  rw [h1, List.range_succ_eq_map]
  simp only [List.map_cons, List.map_map, List.cons.injEq]
  constructor
  · simp
  · apply List.map_congr_left
    intro i _
    simp only [Function.comp_apply, Int.ofNat_eq_coe]
    omega

theorem rangeDates_snoc (l u : Int) (h : l < u) :
    rangeDates l u = rangeDates l (u - 1) ++ [u - 1] := by
  unfold rangeDates
  have h1 : (u - l).toNat = (u - 1 - l).toNat + 1 := by omega
  rw [h1, List.range_succ, List.map_append]
  simp only [List.map_cons, List.map_nil, List.append_cancel_left_eq, List.cons.injEq, and_true]
  rw [Int.ofNat_eq_coe]
  omega

theorem iterFrom_eq_rangeDates (last start : Int) :
    iterFrom last start = rangeDates (start + 1) (last + 1) := by
  generalize hn : (last - start).toNat = n
  induction n generalizing start with
  | zero =>
      rw [iterFrom]
      have h1 : start + 1 > last := by omega
      rw [dif_pos h1]
      have h2 : (last + 1 - (start + 1)).toNat = 0 := by omega
      simp only [rangeDates]
      rw [h2]
      simp
  | succ n ih =>
      rw [iterFrom]
      have h1 : ¬ start + 1 > last := by omega
      rw [dif_neg h1]
      rw [ih (start + 1) (by omega)]
      rw [rangeDates_cons (start + 1) (last + 1) (by omega)]

theorem rangeDates_length (l u : Int) :
    (rangeDates l u).length = (u - l).toNat := by
  simp [rangeDates]

theorem valid_of_parses {b : RawBound} {d : Int} (h : b.parses = some d) :
    ¬ suppliedInvalid b := by
  intro hc
  rw [hc.2] at h
  exact Option.noConfusion h

/-- Master lemma: when neither supplied bound is invalid, the constructor
returns the normalized instance and the mutated settings. -/
theorem construct_ok (s : Settings)
    (h1 : ¬ suppliedInvalid s.lower) (h2 : ¬ suppliedInvalid s.upper) :
    DateRange.construct s =
      .ok (⟨normalizeTuple (adjLower s) (adjUpper s), "date", "day"⟩,
        { s with type := some "date" }) := by
  unfold DateRange.construct
  rw [if_neg, if_neg]
  · intro hc
    exact h2 ⟨hc.1, by
      rcases h : s.upper.parses with - | d
      · rfl
      · exact absurd (by rw [isValidDate, h]; rfl) hc.2⟩
  · intro hc
    exact h1 ⟨hc.1, by
      rcases h : s.lower.parses with - | d
      · rfl
      · exact absurd (by rw [isValidDate, h]; rfl) hc.2⟩

theorem construct_error_lower (s : Settings) (h1 : suppliedInvalid s.lower) :
    DateRange.construct s = .error "Invalid type of lower bound" := by
  unfold DateRange.construct
  rw [if_pos ⟨h1.1, by rw [isValidDate, h1.2]; exact Bool.false_ne_true⟩]

theorem construct_error_upper (s : Settings)
    (h1 : ¬ suppliedInvalid s.lower) (h2 : suppliedInvalid s.upper) :
    DateRange.construct s = .error "Invalid type of upper bound" := by
  unfold DateRange.construct
  rw [if_neg, if_pos ⟨h2.1, by rw [isValidDate, h2.2]; exact Bool.false_ne_true⟩]
  intro hc
  exact h1 ⟨hc.1, by
    rcases h : s.lower.parses with - | d
    · rfl
    · exact absurd (by rw [isValidDate, h]; rfl) hc.2⟩

theorem adjLower_some {s : Settings} {l : Int} (hl : boundDate s.lower = some l) :
    adjLower s = some (if s.lowerInc then l else nextDay l) := by
  unfold adjLower
  rw [hl]
  cases s.lowerInc <;> simp

theorem adjUpper_some {s : Settings} {u : Int} (hu : boundDate s.upper = some u) :
    adjUpper s = some (if s.upperInc then nextDay u else u) := by
  unfold adjUpper
  rw [hu]
  cases s.upperInc <;> simp

theorem normalizeTuple_ge {l u : Int} (h : l ≥ u) :
    normalizeTuple (some l) (some u) = emptyInternalRange := by
  simp [normalizeTuple, h]

theorem normalizeTuple_lt {l u : Int} (h : l < u) :
    normalizeTuple (some l) (some u) = ⟨some l, some u, true, false, false⟩ := by
  simp [normalizeTuple, not_le.mpr h]

/-! ## Claims -/

/-- C1: for every `DateRange` constructed with both bounds valid and a
non-empty result, a supplied `lowerInc = false` is absorbed by advancing the
stored lower bound one step past the supplied lower, a supplied
`upperInc = true` is absorbed by advancing the stored upper bound one step
past the supplied upper, and the canonical tuple has `lowerInc = true` and
`upperInc = false` (half-open `[lower, upper)`). -/
theorem c1_normalization_half_open (s : Settings) (r : DateRange) (s1 : Settings)
    (l u : Int)
    (hl : boundDate s.lower = some l) (hu : boundDate s.upper = some u)
    (hok : DateRange.construct s = .ok (r, s1))
    (hne : r.range.empty = false) :
    (s.lowerInc = false → r.range.lower = some (nextDay l)) ∧
    (s.upperInc = true → r.range.upper = some (nextDay u)) ∧
    r.range.lowerInc = true ∧ r.range.upperInc = false := by
  rw [construct_ok s (valid_of_parses hl) (valid_of_parses hu)] at hok
  have hr : r = ⟨normalizeTuple (adjLower s) (adjUpper s), "date", "day"⟩ := by
    injection hok with h
    injection h with h1 h2
    exact h1.symm
  subst hr
  rw [adjLower_some hl, adjUpper_some hu] at hne ⊢
  by_cases hge : (if s.lowerInc then l else nextDay l) ≥ (if s.upperInc then nextDay u else u)
  · rw [normalizeTuple_ge hge] at hne
    exact absurd hne (by simp [emptyInternalRange])
  · rw [normalizeTuple_lt (not_le.mp hge)]
    refine ⟨?_, ?_, rfl, rfl⟩
    · intro hli
      rw [hli]
      rfl
    · intro hui
      rw [hui]
      rfl

/-- Witness for C1 at the concrete input
`{lower: "2020-01-01", upper: "2020-01-05", lowerInc: false, upperInc: true}`. -/
def sC1 : Settings :=
  { lower := .text "2020-01-01", upper := .text "2020-01-05",
    lowerInc := false, upperInc := true }

def rC1 : DateRange :=
  ⟨⟨some (nextDay (civil 2020 1 1)), some (nextDay (civil 2020 1 5)),
    true, false, false⟩, "date", "day"⟩

theorem c1_witness :
    (sC1.lowerInc = false → rC1.range.lower = some (nextDay (civil 2020 1 1))) ∧
    (sC1.upperInc = true → rC1.range.upper = some (nextDay (civil 2020 1 5))) ∧
    rC1.range.lowerInc = true ∧ rC1.range.upperInc = false :=
  c1_normalization_half_open sC1 rC1 { sC1 with type := some "date" }
    (civil 2020 1 1) (civil 2020 1 5) (by rfl) (by rfl) (by rfl) (by rfl)

/-- C2: if both bounds are present and valid and the adjusted lower bound is
`>=` the adjusted upper bound, construction yields the canonical empty
interval `{lower: null, upper: null, lowerInc: false, upperInc: false,
empty: true}`. -/
theorem c2_empty_collapse (s : Settings) (l u : Int)
    (hl : boundDate s.lower = some l) (hu : boundDate s.upper = some u)
    (hge : (if s.lowerInc then l else nextDay l) ≥ (if s.upperInc then nextDay u else u)) :
    DateRange.construct s =
      .ok (⟨emptyInternalRange, "date", "day"⟩, { s with type := some "date" }) ∧
    emptyInternalRange = ⟨none, none, false, false, true⟩ := by
  refine ⟨?_, rfl⟩
  rw [construct_ok s (valid_of_parses hl) (valid_of_parses hu),
    adjLower_some hl, adjUpper_some hu, normalizeTuple_ge hge]

/-- Witness for C2 at the two concrete inputs named by the claim:
`{lower: "2020-01-05", upper: "2020-01-01"}` (reversed bounds) and
`{lower: "2020-01-01", upper: "2020-01-02", lowerInc: false}` (exclusive
lower advancing onto the upper bound). -/
theorem c2_witness :
    DateRange.construct { lower := .text "2020-01-05", upper := .text "2020-01-01" } =
      .ok (⟨emptyInternalRange, "date", "day"⟩,
        { lower := .text "2020-01-05", upper := .text "2020-01-01", type := some "date" }) ∧
    DateRange.construct
        { lower := .text "2020-01-01", upper := .text "2020-01-02", lowerInc := false } =
      .ok (⟨emptyInternalRange, "date", "day"⟩,
        { lower := .text "2020-01-01", upper := .text "2020-01-02",
          lowerInc := false, type := some "date" }) :=
  ⟨(c2_empty_collapse _ (civil 2020 1 5) (civil 2020 1 1)
      (by rfl) (by rfl) (by decide)).1,
   (c2_empty_collapse _ (civil 2020 1 1) (civil 2020 1 2)
      (by rfl) (by rfl) (by decide)).1⟩

theorem adjLower_absent (s : Settings) (h : s.lower = .absent) :
    adjLower s = none := by
  unfold adjLower boundDate
  rw [h]
  cases s.lowerInc <;> simp [RawBound.parses]

theorem adjUpper_absent (s : Settings) (h : s.upper = .absent) :
    adjUpper s = none := by
  unfold adjUpper boundDate
  rw [h]
  cases s.upperInc <;> simp [RawBound.parses]

theorem normalizeTuple_noLower (ub : Option Int) :
    normalizeTuple none ub = ⟨none, ub, true, false, false⟩ := by
  cases ub <;> rfl

theorem normalizeTuple_noUpper (lb : Option Int) :
    normalizeTuple lb none = ⟨lb, none, true, false, false⟩ := by
  cases lb <;> rfl

/-- C3: `length()` throws `UnboundedLengthError` exactly when a bound is
`null`, and for two non-null bounds returns the integer number of calendar
days between `lower` and `upper` (the rounded day-duration, exact at day
granularity). -/
theorem c3_length_days (r : DateRange) :
    (r.length = .error "Unbounded ranges do not have a length" ↔
      (r.range.lower = none ∨ r.range.upper = none)) ∧
    (∀ l u, r.range.lower = some l → r.range.upper = some u →
      r.length = .ok (u - l)) := by
  constructor
  · cases hl : r.range.lower <;> cases hu : r.range.upper <;>
      simp [DateRange.length, hl, hu]
  · intro l u hl hu
    simp [DateRange.length, hl, hu]

def sC3 : Settings := { lower := .text "2020-01-01", upper := .text "2020-01-05" }

def rC3 : DateRange :=
  ⟨⟨some (civil 2020 1 1), some (civil 2020 1 5), true, false, false⟩, "date", "day"⟩

/-- The range of Scenario D: `DateRange({lower: "2020-01-01"})`, unbounded
above. -/
def rUnb : DateRange :=
  ⟨⟨some (civil 2020 1 1), none, true, false, false⟩, "date", "day"⟩

/-- Witness for C3: `DateRange({lower:"2020-01-01", upper:"2020-01-05"})`
has length 4, and the unbounded `DateRange({lower:"2020-01-01"})` throws. -/
theorem c3_witness :
    DateRange.construct sC3 = .ok (rC3, { sC3 with type := some "date" }) ∧
    rC3.length = .ok 4 ∧
    DateRange.construct { lower := .text "2020-01-01" } =
      .ok (rUnb, { lower := .text "2020-01-01", type := some "date" }) ∧
    rUnb.length = .error "Unbounded ranges do not have a length" :=
  ⟨by rfl, by
      rw [(c3_length_days rC3).2 (civil 2020 1 1) (civil 2020 1 5) rfl rfl]
      rfl,
   by rfl,
   (c3_length_days rUnb).1.mpr (Or.inr rfl)⟩

/-- C4: iterating a bounded non-empty `DateRange` yields exactly the dates
from `lower` stepping by one day up to and including `last()` (the run
stops as soon as the advanced value strictly exceeds `last()`, which is the
day before `upper`), and the number of elements produced equals
`length()`. -/
theorem c4_iteration_enumerates (r : DateRange) (l u : Int)
    (hl : r.range.lower = some l) (hu : r.range.upper = some u) (hlt : l < u) :
    (r.iterate).1 = some (rangeDates l u) ∧
    (r.last).1 = some (u - 1) ∧
    (rangeDates l u).head? = some l ∧
    (rangeDates l u).getLast? = some (u - 1) ∧
    r.length = .ok ((rangeDates l u).length : Int) := by
  have hlast : r.last = (some (u - 1), r) := by
    unfold DateRange.last
    rw [hu]
    rfl
  refine ⟨?_, by rw [hlast], ?_, ?_, ?_⟩
  · unfold DateRange.iterate
    rw [hlast]
    simp only [hl]
    have e : iterFrom (u - 1) ((r.prev l).1) = rangeDates l u := by
      have e0 : (r.prev l).1 = l - 1 := rfl
      rw [e0, iterFrom_eq_rangeDates]
      have e1 : l - 1 + 1 = l := by ring
      have e2 : u - 1 + 1 = u := by ring
      rw [e1, e2]
    rw [e]
  · rw [rangeDates_cons l u hlt]
    rfl
  · rw [rangeDates_snoc l u hlt]
    exact List.getLast?_concat _
  · rw [(c3_length_days r).2 l u hl hu, rangeDates_length]
    have : u - l = ((u - l).toNat : Int) := by omega
    rw [← this]

/-- Witness for C4 at Scenario A's range `[2020-01-01, 2020-01-05)`. -/
theorem c4_witness :
    (rC3.iterate).1 = some (rangeDates (civil 2020 1 1) (civil 2020 1 5)) ∧
    (rC3.last).1 = some (civil 2020 1 5 - 1) ∧
    (rangeDates (civil 2020 1 1) (civil 2020 1 5)).head? = some (civil 2020 1 1) ∧
    (rangeDates (civil 2020 1 1) (civil 2020 1 5)).getLast? = some (civil 2020 1 5 - 1) ∧
    rC3.length = .ok ((rangeDates (civil 2020 1 1) (civil 2020 1 5)).length : Int) :=
  c4_iteration_enumerates rC3 (civil 2020 1 1) (civil 2020 1 5) rfl rfl (by decide)

/-- C5 (amended): construction fails with an invalid-bound error naming the
offending bound if and only if a supplied *truthy* bound (non-null and not
the empty string — the guard `settings.lower && !utils.isValidDate(...)`
skips falsy values) is not a recognized date representation (lower checked
first); absent and falsy bounds are accepted as unbounded, and on failure
no instance is returned.  (As stated over every supplied non-null bound the
claim fails: the supplied empty string is not a recognized date
representation, yet the code does not throw on it — see the
counterexample.) -/
theorem c5_invalid_bound_errors (s : Settings) :
    (DateRange.construct s = .error "Invalid type of lower bound" ↔
      suppliedInvalid s.lower) ∧
    (DateRange.construct s = .error "Invalid type of upper bound" ↔
      (¬ suppliedInvalid s.lower ∧ suppliedInvalid s.upper)) ∧
    ((¬ suppliedInvalid s.lower ∧ ¬ suppliedInvalid s.upper) →
      DateRange.construct s =
        .ok (⟨normalizeTuple (adjLower s) (adjUpper s), "date", "day"⟩,
          { s with type := some "date" })) := by
  have hmsg : "Invalid type of lower bound" ≠ "Invalid type of upper bound" := by decide
  by_cases h1 : suppliedInvalid s.lower
  · rw [construct_error_lower s h1]
    refine ⟨⟨fun _ => h1, fun _ => rfl⟩, ⟨?_, ?_⟩, ?_⟩
    · intro h
      injection h with hm
      exact absurd hm hmsg
    · rintro ⟨hn, -⟩
      exact absurd h1 hn
    · rintro ⟨hn, -⟩
      exact absurd h1 hn
  · by_cases h2 : suppliedInvalid s.upper
    · rw [construct_error_upper s h1 h2]
      refine ⟨⟨?_, fun hc => absurd hc h1⟩, ⟨fun _ => ⟨h1, h2⟩, fun _ => rfl⟩, ?_⟩
      · intro h
        injection h with hm
        exact absurd hm.symm hmsg
      · rintro ⟨-, hn⟩
        exact absurd h2 hn
    · rw [construct_ok s h1 h2]
      exact ⟨⟨fun h => Except.noConfusion h, fun hc => absurd hc h1⟩,
        ⟨fun h => Except.noConfusion h, fun hc => absurd hc.2 h2⟩,
        fun _ => rfl⟩

/-- Witness for the amended C5: an unparseable (truthy) lower bound is
rejected with the lower message, and an unparseable upper bound (failing
both formats) with the upper message. -/
theorem c5_witness :
    suppliedInvalid (RawBound.text "not-a-date") ∧
    DateRange.construct { lower := .text "not-a-date", upper := .text "2020-01-05" } =
      .error "Invalid type of lower bound" ∧
    DateRange.construct { upper := .text "13-45-2020" } =
      .error "Invalid type of upper bound" :=
  ⟨by decide,
   (c5_invalid_bound_errors _).1.mpr (by decide),
   (c5_invalid_bound_errors _).2.1.mpr (by decide)⟩

/-- C5 counterexample: `DateRange({lower: '', upper: "2020-01-05"})` — the
empty string is a supplied, non-null bound that is not a recognized date
representation, yet construction does not fail: the guard
`settings.lower && !utils.isValidDate(settings.lower)` short-circuits on
the falsy `''` and an instance (treating the lower bound as absent) is
returned, so the claim's "fails ... if and only if" is false as stated. -/
theorem c5_counterexample :
    RawBound.text "" ≠ .absent ∧
    RawBound.parses (.text "") = none ∧
    DateRange.construct { lower := .text "", upper := .text "2020-01-05" } =
      .ok (⟨⟨none, some (civil 2020 1 5), true, false, false⟩, "date", "day"⟩,
        { lower := .text "", upper := .text "2020-01-05", type := some "date" }) :=
  ⟨by decide, by rfl, by rfl⟩

/-- C6 (amended): for a `DateRange` whose upper bound is non-null and an
argument parsing as a date in one of the two accepted formats, `endsWith`
returns a boolean that is true iff the argument denotes the same calendar
day as `last() = prev(upper)`; in particular `endsWith` on the value of
`last()` itself returns true.  (As stated over every `DateRange` the claim
fails: with a null upper bound `last()` is null and `endsWith` throws, see
the counterexample.) -/
theorem c6_ends_with_last (r : DateRange) (u : Int) (hu : r.range.upper = some u)
    (other : RawBound) (d : Int) (hp : other.parses = some d) :
    r.endsWith other = some (.ok (prevDay u == d)) ∧
    ((prevDay u == d) = true ↔ (r.last).1 = some d) ∧
    (r.last).1 = some (prevDay u) ∧
    r.endsWith (.value (prevDay u)) = some (.ok true) := by
  have hlast : r.last = (some (prevDay u), r) := by
    unfold DateRange.last
    rw [hu]
    rfl
  refine ⟨?_, ?_, by rw [hlast], ?_⟩
  · unfold DateRange.endsWith
    rw [hp, hlast]
  · rw [hlast]
    simp
  · unfold DateRange.endsWith
    rw [hlast]
    simp [RawBound.parses]

/-- Witness for the amended C6 at Scenario A's range and the argument
`"01-04-2020"` (the `MM-DD-YYYY` form of `last()`). -/
theorem c6_witness :
    rC3.endsWith (.text "01-04-2020") =
      some (.ok (prevDay (civil 2020 1 5) == civil 2020 1 4)) ∧
    ((prevDay (civil 2020 1 5) == civil 2020 1 4) = true ↔
      (rC3.last).1 = some (civil 2020 1 4)) ∧
    (rC3.last).1 = some (prevDay (civil 2020 1 5)) ∧
    rC3.endsWith (.value (prevDay (civil 2020 1 5))) = some (.ok true) :=
  c6_ends_with_last rC3 (civil 2020 1 5) rfl (.text "01-04-2020")
    (civil 2020 1 4) (by rfl)

/-- C6 counterexample: on `DateRange({lower: "2020-01-01"})` (null upper
bound) the argument `"2020-01-05"` parses as a date, yet `endsWith` throws
a `TypeError` (`last()` is null and `null.isSame` is read) instead of
returning a boolean, so the claim fails as stated over every `DateRange`. -/
theorem c6_counterexample :
    DateRange.construct { lower := .text "2020-01-01" } =
      .ok (rUnb, { lower := .text "2020-01-01", type := some "date" }) ∧
    RawBound.parses (.text "2020-01-05") = some (civil 2020 1 5) ∧
    (rUnb.last).1 = none ∧
    rUnb.endsWith (.text "2020-01-05") =
      some (.error "TypeError: Cannot read properties of null (reading isSame)") :=
  ⟨by rfl, by rfl, by rfl, by rfl⟩

/-- C7: `next(value)`, `prev(value)`, `last()` and a full iteration leave
the instance — in particular its canonical tuple — unchanged: none of these
methods assigns to the instance, and the calendar adapter's `add`/`subtract`
capabilities are pure. -/
theorem c7_frame_no_mutation (r : DateRange) (v : Int) :
    (r.next v).2 = r ∧ (r.prev v).2 = r ∧ (r.last).2 = r ∧ (r.iterate).2 = r := by
  obtain ⟨⟨lo, up, li, ui, e⟩, t, st⟩ := r
  refine ⟨rfl, rfl, ?_, ?_⟩
  · unfold DateRange.last
    cases up <;> rfl
  · unfold DateRange.iterate DateRange.last
    cases up <;> cases lo <;> rfl

/-- Witness for C7 at a concrete instance and value. -/
theorem c7_witness :
    (rC3.next 0).2 = rC3 ∧ (rC3.prev 0).2 = rC3 ∧
    (rC3.last).2 = rC3 ∧ (rC3.iterate).2 = rC3 :=
  c7_frame_no_mutation rC3 0

/-- C8: a `DateRange` constructed with exactly one bound present (the other
absent) is never collapsed to the empty interval; with only the lower bound
set, the result is non-empty with a null upper bound. -/
theorem c8_one_sided_never_empty (s : Settings) (r : DateRange) (s1 : Settings)
    (hok : DateRange.construct s = .ok (r, s1))
    (hone : (s.lower = .absent ∧ s.upper ≠ .absent) ∨
      (s.lower ≠ .absent ∧ s.upper = .absent)) :
    r.range.empty = false ∧ (s.upper = .absent → r.range.upper = none) := by
  rcases hone with ⟨hla, hua⟩ | ⟨hla, hua⟩
  · have h1 : ¬ suppliedInvalid s.lower := by
      intro hc
      rw [hla] at hc
      exact absurd hc.1 (by decide)
    by_cases h2 : suppliedInvalid s.upper
    · rw [construct_error_upper s h1 h2] at hok
      exact Except.noConfusion hok
    · rw [construct_ok s h1 h2] at hok
      injection hok with h
      injection h with hr hs
      rw [← hr, adjLower_absent s hla, normalizeTuple_noLower]
      exact ⟨rfl, fun hup => absurd hup hua⟩
  · have h2 : ¬ suppliedInvalid s.upper := by
      intro hc
      rw [hua] at hc
      exact absurd hc.1 (by decide)
    by_cases h1 : suppliedInvalid s.lower
    · rw [construct_error_lower s h1] at hok
      exact Except.noConfusion hok
    · rw [construct_ok s h1 h2] at hok
      injection hok with h
      injection h with hr hs
      rw [← hr, adjUpper_absent s hua, normalizeTuple_noUpper]
      exact ⟨rfl, fun _ => rfl⟩

/-- The settings of Scenario D: `{lower: "2020-01-01"}`, upper absent. -/
def sUnb : Settings := { lower := .text "2020-01-01" }

/-- Witness for C8 at `{lower: "2020-01-01"}` (upper absent). -/
theorem c8_witness :
    rUnb.range.empty = false ∧ (sUnb.upper = .absent → rUnb.range.upper = none) :=
  c8_one_sided_never_empty sUnb rUnb { sUnb with type := some "date" }
    (by rfl) (by decide)

/-- C9: for a `PeriodRange` built by `fromDate`, `nextPeriod()` re-invokes
`fromDate` on the current upper bound with the same period tag,
`prevPeriod()` re-invokes it on `prev(lower)`, and
`p.nextPeriod().prevPeriod()` reproduces `p`'s bounds (and period tag). -/
theorem c9_period_navigation (d : Int) (period : String) :
    (∀ u, (PeriodRange.fromDate d period).range.upper = some u →
      (PeriodRange.fromDate d period).nextPeriod =
        some (PeriodRange.fromDate u period)) ∧
    (∀ l, (PeriodRange.fromDate d period).range.lower = some l →
      (PeriodRange.fromDate d period).prevPeriod =
        some (PeriodRange.fromDate (prevDay l) period)) ∧
    (((PeriodRange.fromDate d period).nextPeriod.bind PeriodRange.prevPeriod).map
        (fun q => (q.range.lower, q.range.upper, q.period)) =
      some ((PeriodRange.fromDate d period).range.lower,
        (PeriodRange.fromDate d period).range.upper, period)) := by
  have hL : periodLength period = 7 ∨ periodLength period = 1 := by
    unfold periodLength
    split <;> simp
  refine ⟨?_, ?_, ?_⟩
  · intro u hu
    simp only [PeriodRange.fromDate, PeriodRange.nextPeriod] at hu ⊢
    simp only [Option.some.injEq] at hu
    rw [hu]
    rfl
  · intro l hl
    simp only [PeriodRange.fromDate, PeriodRange.prevPeriod] at hl ⊢
    simp only [Option.some.injEq] at hl
    rw [hl]
    rfl
  · rcases hL with h | h <;>
      simp only [PeriodRange.nextPeriod, PeriodRange.prevPeriod, PeriodRange.fromDate,
        periodStart, prevDay, h, Option.map_some', Option.some_bind, Option.some.injEq,
        Prod.mk.injEq] <;>
      refine ⟨?_, ?_, trivial⟩ <;> omega

/-- Witness for C9 at anchor `2020-01-01` with period `"week"`. -/
theorem c9_witness :
    (PeriodRange.fromDate (civil 2020 1 1) "week").nextPeriod =
      some (PeriodRange.fromDate (civil 2020 1 8) "week") ∧
    (PeriodRange.fromDate (civil 2020 1 1) "week").prevPeriod =
      some (PeriodRange.fromDate (prevDay (civil 2020 1 1)) "week") ∧
    (((PeriodRange.fromDate (civil 2020 1 1) "week").nextPeriod.bind
        PeriodRange.prevPeriod).map
        (fun q => (q.range.lower, q.range.upper, q.period)) =
      some ((PeriodRange.fromDate (civil 2020 1 1) "week").range.lower,
        (PeriodRange.fromDate (civil 2020 1 1) "week").range.upper, "week")) :=
  ⟨(c9_period_navigation (civil 2020 1 1) "week").1 (civil 2020 1 8) (by decide),
   (c9_period_navigation (civil 2020 1 1) "week").2.1 (civil 2020 1 1) (by decide),
   (c9_period_navigation (civil 2020 1 1) "week").2.2⟩

/-- C10 (implicit): the `DateRange` constructor mutates the caller-supplied
settings object in place, assigning `settings.type = 'date'` before
delegating to the base class; after a successful construction the caller's
settings observably carry a `type` field it did not supply. -/
theorem c10_settings_type_mutation (s : Settings) (r : DateRange) (s1 : Settings)
    (hok : DateRange.construct s = .ok (r, s1)) :
    s1 = { s with type := some "date" } ∧ s1.type = some "date" ∧
    (s.type = none → s1 ≠ s) := by
  have hs1 : s1 = { s with type := some "date" } := by
    by_cases h1 : suppliedInvalid s.lower
    · rw [construct_error_lower s h1] at hok
      exact Except.noConfusion hok
    · by_cases h2 : suppliedInvalid s.upper
      · rw [construct_error_upper s h1 h2] at hok
        exact Except.noConfusion hok
      · rw [construct_ok s h1 h2] at hok
        injection hok with h
        injection h with hr hs
        exact hs.symm
  subst hs1
  refine ⟨rfl, rfl, ?_⟩
  intro hnone hcontra
  have htype : some "date" = s.type := congrArg Settings.type hcontra
  rw [hnone] at htype
  exact Option.noConfusion htype

/-- Witness for C10 at `{lower: "2020-01-01"}` (no `type` supplied). -/
theorem c10_witness :
    ({ sUnb with type := some "date" } : Settings) = { sUnb with type := some "date" } ∧
    ({ sUnb with type := some "date" } : Settings).type = some "date" ∧
    (sUnb.type = none → ({ sUnb with type := some "date" } : Settings) ≠ sUnb) :=
  c10_settings_type_mutation sUnb rUnb { sUnb with type := some "date" } (by rfl)

end IntervalsJS
